import Mathlib

/-!
Verification of the SantaMacro target-tracking core (src/macro.py).

This file gives a shallow embedding of the detection-validation, profile
learning, lock-on, camera-steering and attack-phase logic of the
`SantaMacro` class, together with theorems settling the specification
claims about those components.

Conventions of the embedding:
* Python `int` values become `ℤ` (or `ℕ` where the source value is a
  pixel dimension that is nonnegative by construction); Python `float`
  values become `ℚ`.  Python floor division `//` becomes `Int.fdiv`;
  Python `int(x)` (truncation toward zero) becomes `pyInt`.
* Comparisons of a Euclidean distance `math.sqrt(dx*dx+dy*dy)` or
  `math.hypot` against a nonnegative bound `m` are embedded in squared
  form, `dx*dx+dy*dy > m*m`, which is exactly equivalent for `m ≥ 0`.
* Pixel-content computations (cv2 histogram correlation, template
  correlation maps, contour extraction) are inputs of the embedded
  functions: the frame enters a detector as the list of contours /
  the correlation oracle it induces, and a frame enters validation as
  the color-histogram similarity value it induces.
-/

namespace Santa

/-- Python `int(x)`: truncation of a rational toward zero. -/
def pyInt (q : ℚ) : ℤ :=
  if 0 ≤ q then ⌊q⌋ else ⌈q⌉

/-- An absolute-coordinate bounding box `(x, y, w, h)` as used throughout
`macro.py`.  Widths and heights produced by the detectors are nonnegative,
but we keep `ℤ` to match the Python `int` type. -/
structure BBox where
  x : ℤ
  y : ℤ
  w : ℤ
  h : ℤ
deriving DecidableEq, Repr

/-- Embeds `size = max(w, h)`, the larger bounding-box dimension (macro.py line 843/993). -/
def bboxSize (b : BBox) : ℤ := max b.w b.h

/-- Embeds `center = (x + w // 2, y + h // 2)` (macro.py line 844/994); Python `//`
is floor division, hence `Int.fdiv`. -/
def bboxCenter (b : BBox) : ℤ × ℤ := (b.x + b.w.fdiv 2, b.y + b.h.fdiv 2)

/-- The learned Santa profile fields consumed by `_validate_detection`
(`SantaProfile` dataclass, macro.py lines 48-59).  `hasColorSignature`
records whether `color_signature` is `None`; the histogram itself only
enters validation through the correlation value it induces on a frame,
which is an input of `validateDetection`. -/
structure SantaProfile where
  sizeMin : ℤ
  sizeMax : ℤ
  avgSpeed : ℚ
  hasColorSignature : Bool
deriving Repr

/-- Embeds `_validate_detection` (macro.py lines 984-1027).

Arguments mirror the `self` fields read by the function:
`lockedSanta = self._locked_santa`, `profile = self._santa_profile`,
`lastSantaCenter = self._last_santa_center`,
`positionJumpThreshold = self.position_jump_threshold`,
`tickInterval = self.tick_interval`,
`colorSimilarityThreshold = self.color_similarity_threshold`.

`colorSim` is the value `cv2.compareHist(signature, hist, HISTCMP_CORREL)`
computed from the frame when the profile has a color signature and the
clipped detection region is nonempty; `none` models the case
`roi_x2 ≤ roi_x ∨ roi_y2 ≤ roi_y` (empty clipped region), in which the
source skips the color check.  The jump test embeds
`sqrt(dx²+dy²) > max_allowed_jump` in squared form.  Rejection-reason
strings summarise the f-strings of the source; acceptance returns the
source's exact `(True, "")`. -/
def maxAllowedJump (profile : SantaProfile) (positionJumpThreshold : ℤ)
    (tickInterval : ℚ) : ℚ :=
  max (positionJumpThreshold : ℚ) (profile.avgSpeed * tickInterval * 3)

/-- The jump test of `_validate_detection` (macro.py lines 999-1008), in
squared form: `true` means the candidate is rejected for jumping too far. -/
def jumpRejected (profile : SantaProfile) (positionJumpThreshold : ℤ)
    (tickInterval : ℚ) (center : ℤ × ℤ) : Option (ℤ × ℤ) → Bool
  | none => false
  | some (lx, ly) =>
    let dx := center.1 - lx
    let dy := center.2 - ly
    let m := maxAllowedJump profile positionJumpThreshold tickInterval
    decide (((dx * dx + dy * dy : ℤ) : ℚ) > m * m)

/-- The color-signature test of `_validate_detection` (macro.py lines
1010-1025): reject exactly when a signature exists, a similarity was
computed from the frame, and it fell below the threshold. -/
def colorRejected (profile : SantaProfile) (colorSimilarityThreshold : ℚ) :
    Option ℚ → Bool
  | none => false
  | some s => profile.hasColorSignature && decide (s < colorSimilarityThreshold)

def validateDetection (lockedSanta : Bool) (profile : SantaProfile)
    (lastSantaCenter : Option (ℤ × ℤ)) (positionJumpThreshold : ℤ)
    (tickInterval : ℚ) (colorSimilarityThreshold : ℚ)
    (b : BBox) (colorSim : Option ℚ) : Bool × String :=
  if lockedSanta = false then (true, "")
  else
    if bboxSize b < profile.sizeMin ∨ bboxSize b > profile.sizeMax then
      (false, "SIZE not in learned range")
    else if jumpRejected profile positionJumpThreshold tickInterval (bboxCenter b)
        lastSantaCenter then
      (false, "JUMP above max allowed")
    else if colorRejected profile colorSimilarityThreshold colorSim then
      (false, "color similarity below threshold")
    else (true, "")

/-- The color branch of `_validate_detection` does not reject: either the
profile has no signature, or the clipped region was empty, or the computed
similarity reached the threshold. -/
def colorCheckPasses (profile : SantaProfile) (colorSimilarityThreshold : ℚ)
    (colorSim : Option ℚ) : Prop :=
  profile.hasColorSignature = true →
    ∀ s, colorSim = some s → colorSimilarityThreshold ≤ s

instance (profile : SantaProfile) (t : ℚ) (c : Option ℚ) :
    Decidable (colorCheckPasses profile t c) := by
  unfold colorCheckPasses; infer_instance

/-- Claim C1. While lock is engaged, a candidate whose `max(w,h)` lies outside
`[size_min, size_max]` is rejected by `_validate_detection`, whatever its
position (`lastSantaCenter`) and whatever color content (`colorSim`) the
frame induces: the size test at macro.py lines 996-997 precedes the jump
and color tests. -/
theorem validate_rejects_size_out_of_range
    (profile : SantaProfile) (lastSantaCenter : Option (ℤ × ℤ))
    (positionJumpThreshold : ℤ) (tickInterval : ℚ)
    (colorSimilarityThreshold : ℚ) (b : BBox) (colorSim : Option ℚ)
    (hsize : bboxSize b < profile.sizeMin ∨ profile.sizeMax < bboxSize b) :
    (validateDetection true profile lastSantaCenter positionJumpThreshold
      tickInterval colorSimilarityThreshold b colorSim).1 = false := by
  unfold validateDetection
  rw [if_neg (by simp), if_pos]
  rcases hsize with h | h
  · exact Or.inl h
  · exact Or.inr h

/-- Witness for C1: a concrete oversized candidate is rejected. -/
theorem validate_rejects_size_out_of_range_witness :
    (validateDetection true ⟨30, 100, 40, true⟩ (some (100, 100)) 150 (1/25) (3/5)
      ⟨0, 0, 500, 500⟩ (some 1)).1 = false :=
  validate_rejects_size_out_of_range ⟨30, 100, 40, true⟩ (some (100, 100)) 150
    (1/25) (3/5) ⟨0, 0, 500, 500⟩ (some 1) (by decide)

/-- Claim C2. With lock engaged and `last_center` recorded:
(i) a candidate whose center is at Euclidean distance exceeding
`max(position_jump_threshold, avg_speed * tick_interval * 3)` from
`last_center` is rejected (the hypothesis states the squared form, which is
equivalent since the bound is the `max` against a squared comparison);
(ii) a candidate at distance 0 (center equal to `last_center`) is accepted
with empty reason provided its size is in range and the color check passes. -/
theorem validate_jump_gating
    (profile : SantaProfile) (lc : ℤ × ℤ) (positionJumpThreshold : ℤ)
    (tickInterval : ℚ) (colorSimilarityThreshold : ℚ)
    (b : BBox) (colorSim : Option ℚ) :
    (((((bboxCenter b).1 - lc.1) * ((bboxCenter b).1 - lc.1)
        + ((bboxCenter b).2 - lc.2) * ((bboxCenter b).2 - lc.2) : ℤ) : ℚ)
        > max (positionJumpThreshold : ℚ) (profile.avgSpeed * tickInterval * 3)
          * max (positionJumpThreshold : ℚ) (profile.avgSpeed * tickInterval * 3) →
      (validateDetection true profile (some lc) positionJumpThreshold
        tickInterval colorSimilarityThreshold b colorSim).1 = false)
    ∧ (bboxCenter b = lc →
        profile.sizeMin ≤ bboxSize b → bboxSize b ≤ profile.sizeMax →
        colorCheckPasses profile colorSimilarityThreshold colorSim →
        validateDetection true profile (some lc) positionJumpThreshold
          tickInterval colorSimilarityThreshold b colorSim = (true, "")) := by
  constructor
  · intro hjump
    unfold validateDetection
    rw [if_neg (by simp)]
    by_cases hsz : bboxSize b < profile.sizeMin ∨ bboxSize b > profile.sizeMax
    · rw [if_pos hsz]
    · rw [if_neg hsz, if_pos]
      show jumpRejected profile positionJumpThreshold tickInterval
        (bboxCenter b) (some lc) = true
      unfold jumpRejected maxAllowedJump
      exact decide_eq_true hjump
  · intro hc hmin hmax hcol
    unfold validateDetection
    rw [if_neg (by simp)]
    rw [if_neg (by push_neg; exact ⟨hmin, hmax⟩)]
    have hjr : jumpRejected profile positionJumpThreshold tickInterval
        (bboxCenter b) (some lc) = false := by
      unfold jumpRejected maxAllowedJump
      have hzero1 : ((bboxCenter b).1 - lc.1) = 0 := by rw [hc]; ring
      have hzero2 : ((bboxCenter b).2 - lc.2) = 0 := by rw [hc]; ring
      simp only [hzero1, hzero2, mul_zero, zero_mul, add_zero, Int.cast_zero,
        decide_eq_false_iff_not, not_lt]
      exact mul_self_nonneg _
    have hcr : colorRejected profile colorSimilarityThreshold colorSim = false := by
      unfold colorRejected
      cases hcs : colorSim with
      | none => rfl
      | some s =>
        by_cases hsig : profile.hasColorSignature = true
        · have := hcol hsig s hcs
          simp [hsig, not_lt.mpr this]
        · simp [Bool.not_eq_true] at hsig
          simp [hsig]
    rw [if_neg (by rw [hjr]; exact Bool.false_ne_true),
      if_neg (by rw [hcr]; exact Bool.false_ne_true)]

/-- Witness for C2: with `last_center = (100,100)`, `avg_speed = 50` px/s and
`tick_interval = 0.04` s (the spec's scenario, `max_allowed = max(150, 6) = 150`),
a candidate centered `200` px away is rejected, and the same candidate placed
exactly at `last_center` is accepted. -/
theorem validate_jump_gating_witness :
    (validateDetection true ⟨30, 100, 50, false⟩ (some (100, 100)) 150 (1/25) (3/5)
      ⟨280, 80, 40, 40⟩ none).1 = false
    ∧ validateDetection true ⟨30, 100, 50, false⟩ (some (100, 100)) 150 (1/25) (3/5)
      ⟨80, 80, 40, 40⟩ none = (true, "") := by
  constructor
  · exact (validate_jump_gating ⟨30, 100, 50, false⟩ (100, 100) 150 (1/25) (3/5)
      ⟨280, 80, 40, 40⟩ none).1 (by norm_num [bboxCenter, Int.fdiv])
  · exact (validate_jump_gating ⟨30, 100, 50, false⟩ (100, 100) 150 (1/25) (3/5)
      ⟨80, 80, 40, 40⟩ none).2 (by norm_num [bboxCenter, Int.fdiv])
      (by norm_num [bboxSize]) (by norm_num [bboxSize])
      (by intro h; cases h)

/-! ## Profile Learner (`_start_learning_phase`, `_process_learning_sample`,
`_finalize_learning`, macro.py lines 821-982) -/

/-- The subset of `MacroState` values touched by the learning phase. -/
inductive MState
  | idle
  | detecting
  | learning
deriving DecidableEq, Repr

/-- The mutable `SantaProfile` as owned by the learner: `size_min = 0`,
`size_max = 9999`, `avg_speed = 0.0`, `color_signature = None`,
`movement_history = []` initially (macro.py lines 48-59). -/
structure LearnProfile where
  sizeMin : ℤ
  sizeMax : ℤ
  avgSpeed : ℚ
  hasColorSignature : Bool
  movementHistory : List (ℚ × ℤ × ℤ)
deriving DecidableEq, Repr

def LearnProfile.initial : LearnProfile :=
  { sizeMin := 0, sizeMax := 9999, avgSpeed := 0, hasColorSignature := false,
    movementHistory := [] }

/-- The learning-phase fields of `SantaMacro` read or written by the three
learner methods.  `samples` drops the stored frame copy (it is only ever
written during learning). -/
structure LearnState where
  samples : List (ℚ × BBox)
  stableCount : ℕ
  lostCount : ℕ
  firstBbox : Option BBox
  lastSantaCenter : Option (ℤ × ℤ)
  continuousStart : Option ℚ
  lastSampleTs : Option ℚ
  learningStartTs : Option ℚ
  lockedSanta : Bool
  state : MState
  profile : LearnProfile
deriving DecidableEq, Repr

/-- Embeds `_start_learning_phase` (macro.py lines 821-832): reset every piece of
learning state and enter the LEARNING state. -/
def startLearningPhase (now : ℚ) (st : LearnState) : LearnState :=
  { st with
    learningStartTs := some now
    samples := []
    profile := LearnProfile.initial
    lockedSanta := false
    stableCount := 0
    firstBbox := none
    lostCount := 0
    continuousStart := none
    lastSampleTs := none
    state := .learning }

/-- Embeds `_process_learning_sample` (macro.py lines 839-935).

`euclidSpeed` is the average inter-sample speed `total_dist / total_time`
computed at lines 900-915 from the movement history; it involves
`math.sqrt` and is therefore passed as the (pixel-content independent)
function it is rather than recomputed in `ℚ`.

The second component of the result models the exception raised by the
call: line 918 reads `roi_y` (and line 920 `roi_x2`, `roi_x`), names that
are defined in `_validate_detection` (lines 1011-1013) but nowhere in
`_process_learning_sample` or at module scope, so every accepted
non-first sample raises `NameError` after the state mutations of lines
882-915 have already been applied to `self`. -/
def processLearningSample (euclidSpeed : List (ℚ × ℤ × ℤ) → ℚ)
    (now : ℚ) (b : BBox) (st : LearnState) : LearnState × Option String :=
  let size := bboxSize b
  let center := bboxCenter b
  match st.firstBbox with
  | none =>
    ({ st with
        firstBbox := some b
        lastSantaCenter := some center
        continuousStart := some now
        lastSampleTs := some now }, none)
  | some fb =>
    let firstSize := bboxSize fb
    let sizeRatio : ℚ := if firstSize > 0 then (size : ℚ) / (firstSize : ℚ) else 999
    if sizeRatio < 1/2 ∨ sizeRatio > 2 then
      ({ st with lostCount := st.lostCount + 1, continuousStart := none }, none)
    else
      let jumpTooFar : Bool :=
        match st.lastSantaCenter with
        | none => false
        | some (lx, ly) =>
          let dx := center.1 - lx
          let dy := center.2 - ly
          decide ((dx * dx + dy * dy : ℤ) > 200 * 200)
      if jumpTooFar then
        ({ st with lostCount := st.lostCount + 1, continuousStart := none }, none)
      else
        let samples' := st.samples ++ [(now, b)]
        let profile₁ :=
          if samples'.length = 1 then
            { st.profile with sizeMin := size, sizeMax := size }
          else
            { st.profile with
                sizeMin := min st.profile.sizeMin size
                sizeMax := max st.profile.sizeMax size }
        let history' := profile₁.movementHistory ++ [(now, center)]
        let profile₂ :=
          if 2 ≤ history'.length then
            { profile₁ with movementHistory := history', avgSpeed := euclidSpeed history' }
          else { profile₁ with movementHistory := history' }
        ({ st with
            samples := samples'
            stableCount := st.stableCount + 1
            lostCount := 0
            lastSantaCenter := some center
            continuousStart := some (st.continuousStart.getD now)
            lastSampleTs := some now
            profile := profile₂ },
         some "NameError: name roi_y is not defined")

/-- Configuration constants read by `_finalize_learning`:
`self.min_santa_size` (default 25), `self.max_santa_size` (default 300),
`self.size_tolerance` (default 0.5), macro.py lines 138-140. -/
structure LearnConfig where
  minSantaSize : ℤ
  maxSantaSize : ℤ
  sizeTolerance : ℚ
deriving DecidableEq, Repr

/-- The continuous-tracking duration computed at macro.py lines 941-944. -/
def continuousElapsed (now : ℚ) (st : LearnState) : ℚ :=
  match st.continuousStart with
  | some t => now - t
  | none => 0

/-- Embeds `_finalize_learning` (macro.py lines 937-982): commit the profile
(engage `_locked_santa`) when at least 50 stable samples were collected,
the continuous-tracking duration reaches 3.0 s, and the average speed lies
in `[10, 500]` px/s; on commit, widen the size bounds by
`int(size_range * size_tolerance)` and clamp them to the configured
absolute bounds.  On either failure, reset the learning bookkeeping and
return to the DETECTING (search) state. -/
def finalizeLearning (cfg : LearnConfig) (now : ℚ) (st : LearnState) : LearnState :=
  if st.samples.length < 50 ∨ continuousElapsed now st < 3 then
    { st with
        learningStartTs := none, firstBbox := none, continuousStart := none,
        lockedSanta := false, state := .detecting }
  else if st.profile.avgSpeed < 10 ∨ st.profile.avgSpeed > 500 then
    { st with
        learningStartTs := none, firstBbox := none, continuousStart := none,
        lockedSanta := false, state := .detecting }
  else
    let sizeRange := st.profile.sizeMax - st.profile.sizeMin
    let tolerance := pyInt ((sizeRange : ℚ) * cfg.sizeTolerance)
    { st with
        lockedSanta := true
        state := .detecting
        profile := { st.profile with
          sizeMin := max cfg.minSantaSize (st.profile.sizeMin - tolerance)
          sizeMax := min cfg.maxSantaSize (st.profile.sizeMax + tolerance) } }

/-- Minimum of `max(w,h)` over the accepted samples. -/
def observedMinSize : List (ℚ × BBox) → Option ℤ
  | [] => none
  | s :: rest => some (rest.foldl (fun m t => min m (bboxSize t.2)) (bboxSize s.2))

/-- Maximum of `max(w,h)` over the accepted samples. -/
def observedMaxSize : List (ℚ × BBox) → Option ℤ
  | [] => none
  | s :: rest => some (rest.foldl (fun m t => max m (bboxSize t.2)) (bboxSize s.2))

/-- Claim C3. `_finalize_learning` commits (lock engaged) iff the sample
count is at least 50, the continuous-tracking duration is at least 3.0 s,
and the average speed lies in `[10, 500]` px/s; on any failure the
learning bookkeeping (`_learning_start_ts`, `_learning_first_bbox`,
`_learning_continuous_start`) is discarded, `_locked_santa` stays false
(no partial profile committed: the profile fields are left untouched and
unplugged), and control returns to the DETECTING search state; moreover
`_start_learning_phase` re-initialises the sample buffer and profile
before any new learning begins. -/
theorem finalize_commit_iff (cfg : LearnConfig) (now : ℚ) (st : LearnState) :
    ((finalizeLearning cfg now st).lockedSanta = true ↔
      (50 ≤ st.samples.length ∧ 3 ≤ continuousElapsed now st ∧
        10 ≤ st.profile.avgSpeed ∧ st.profile.avgSpeed ≤ 500))
    ∧ ((finalizeLearning cfg now st).lockedSanta = false →
        (finalizeLearning cfg now st).learningStartTs = none ∧
        (finalizeLearning cfg now st).firstBbox = none ∧
        (finalizeLearning cfg now st).continuousStart = none ∧
        (finalizeLearning cfg now st).state = .detecting ∧
        (finalizeLearning cfg now st).profile = st.profile)
    ∧ ((startLearningPhase now st).samples = [] ∧
        (startLearningPhase now st).profile = LearnProfile.initial ∧
        (startLearningPhase now st).lockedSanta = false) := by
  refine ⟨⟨?_, ?_⟩, ?_, ⟨rfl, rfl, rfl⟩⟩
  · intro hc
    unfold finalizeLearning at hc
    by_cases h1 : st.samples.length < 50 ∨ continuousElapsed now st < 3
    · rw [if_pos h1] at hc; exact Bool.noConfusion hc
    · rw [if_neg h1] at hc
      by_cases h2 : st.profile.avgSpeed < 10 ∨ st.profile.avgSpeed > 500
      · rw [if_pos h2] at hc; exact Bool.noConfusion hc
      · push_neg at h1 h2
        exact ⟨h1.1, h1.2, h2.1, h2.2⟩
  · rintro ⟨hlen, hcont, hs1, hs2⟩
    unfold finalizeLearning
    rw [if_neg (by push_neg; exact ⟨hlen, hcont⟩),
      if_neg (by push_neg; exact ⟨hs1, hs2⟩)]
  · intro hfalse
    unfold finalizeLearning at hfalse ⊢
    by_cases h1 : st.samples.length < 50 ∨ continuousElapsed now st < 3
    · rw [if_pos h1]; exact ⟨rfl, rfl, rfl, rfl, rfl⟩
    · rw [if_neg h1] at hfalse ⊢
      by_cases h2 : st.profile.avgSpeed < 10 ∨ st.profile.avgSpeed > 500
      · rw [if_pos h2]; exact ⟨rfl, rfl, rfl, rfl, rfl⟩
      · rw [if_neg h2] at hfalse; exact Bool.noConfusion hfalse

/-- Witness for C3: a learner state with 60 accepted samples, 4 s of
continuous tracking and average speed 40 px/s commits, and one with only
10 samples fails with all learning bookkeeping discarded. -/
theorem finalize_commit_iff_witness :
    (finalizeLearning ⟨25, 300, 1/2⟩ 4
      { samples := List.replicate 60 ((0 : ℚ), ⟨0, 0, 40, 40⟩),
        stableCount := 60, lostCount := 0, firstBbox := some ⟨0, 0, 40, 40⟩,
        lastSantaCenter := some (20, 20), continuousStart := some 0,
        lastSampleTs := some 4, learningStartTs := some 0, lockedSanta := false,
        state := .learning,
        profile := { sizeMin := 40, sizeMax := 40, avgSpeed := 40,
                     hasColorSignature := false, movementHistory := [] } }).lockedSanta
      = true
    ∧ (finalizeLearning ⟨25, 300, 1/2⟩ 4
      { samples := List.replicate 10 ((0 : ℚ), ⟨0, 0, 40, 40⟩),
        stableCount := 10, lostCount := 0, firstBbox := some ⟨0, 0, 40, 40⟩,
        lastSantaCenter := some (20, 20), continuousStart := some 0,
        lastSampleTs := some 4, learningStartTs := some 0, lockedSanta := false,
        state := .learning,
        profile := { sizeMin := 40, sizeMax := 40, avgSpeed := 40,
                     hasColorSignature := false, movementHistory := [] } }).learningStartTs
      = none := by
  constructor
  · exact (finalize_commit_iff ⟨25, 300, 1/2⟩ 4 _).1.mpr
      ⟨by simp, by norm_num [continuousElapsed], by norm_num, by norm_num⟩
  · exact ((finalize_commit_iff ⟨25, 300, 1/2⟩ 4 _).2.1
      (by norm_num [finalizeLearning, continuousElapsed])).1

theorem pyInt_nonneg {q : ℚ} (h : 0 ≤ q) : 0 ≤ pyInt q := by
  unfold pyInt
  rw [if_pos h]
  exact Int.le_floor.mpr (by exact_mod_cast h)

/-- Claim C8, amended. On commit the frozen bounds are exactly the observed
bounds widened by `int(size_tolerance * observed_range)` and clamped to the
configured absolute bounds; consequently `size_min ≤ observed_min` and
`observed_max ≤ size_max` hold *provided* the observed extremes already lie
inside the configured absolute range.  (The unconditional containment
claimed by the spec fails: the clamp `max(self.min_santa_size, ...)` raises
`size_min` above `observed_min` whenever the observed minimum falls below
the configured absolute minimum — see the counterexample.) -/
theorem finalize_size_bounds_widen
    (cfg : LearnConfig) (now : ℚ) (st : LearnState)
    (htol : 0 ≤ cfg.sizeTolerance)
    (hrange : st.profile.sizeMin ≤ st.profile.sizeMax)
    (hmin : cfg.minSantaSize ≤ st.profile.sizeMin)
    (hmax : st.profile.sizeMax ≤ cfg.maxSantaSize)
    (hcommit : (finalizeLearning cfg now st).lockedSanta = true) :
    (finalizeLearning cfg now st).profile.sizeMin =
      max cfg.minSantaSize (st.profile.sizeMin -
        pyInt (((st.profile.sizeMax - st.profile.sizeMin : ℤ) : ℚ) * cfg.sizeTolerance)) ∧
    (finalizeLearning cfg now st).profile.sizeMax =
      min cfg.maxSantaSize (st.profile.sizeMax +
        pyInt (((st.profile.sizeMax - st.profile.sizeMin : ℤ) : ℚ) * cfg.sizeTolerance)) ∧
    (finalizeLearning cfg now st).profile.sizeMin ≤ st.profile.sizeMin ∧
    st.profile.sizeMax ≤ (finalizeLearning cfg now st).profile.sizeMax := by
  have htolnn : 0 ≤ pyInt (((st.profile.sizeMax - st.profile.sizeMin : ℤ) : ℚ)
      * cfg.sizeTolerance) :=
    pyInt_nonneg (mul_nonneg (by exact_mod_cast sub_nonneg.mpr hrange) htol)
  unfold finalizeLearning at hcommit ⊢
  by_cases h1 : st.samples.length < 50 ∨ continuousElapsed now st < 3
  · rw [if_pos h1] at hcommit; exact Bool.noConfusion hcommit
  · rw [if_neg h1] at hcommit ⊢
    by_cases h2 : st.profile.avgSpeed < 10 ∨ st.profile.avgSpeed > 500
    · rw [if_pos h2] at hcommit; exact Bool.noConfusion hcommit
    · rw [if_neg h2]
      refine ⟨rfl, rfl, ?_, ?_⟩
      · show max cfg.minSantaSize (st.profile.sizeMin -
          pyInt (((st.profile.sizeMax - st.profile.sizeMin : ℤ) : ℚ) * cfg.sizeTolerance))
            ≤ st.profile.sizeMin
        exact max_le hmin (by omega)
      · show st.profile.sizeMax ≤ min cfg.maxSantaSize (st.profile.sizeMax +
          pyInt (((st.profile.sizeMax - st.profile.sizeMin : ℤ) : ℚ) * cfg.sizeTolerance))
        exact le_min hmax (by omega)

/-- Witness for C8's amended theorem: the spec's synthetic stream (60
samples of constant size 40 ≥ configured minimum 25, speed 40 px/s, 4 s
continuous) commits with frozen bounds containing the observed bounds. -/
theorem finalize_size_bounds_widen_witness :
    (finalizeLearning ⟨25, 300, 1/2⟩ 4
      { samples := List.replicate 60 ((0 : ℚ), ⟨0, 0, 40, 40⟩),
        stableCount := 60, lostCount := 0, firstBbox := some ⟨0, 0, 40, 40⟩,
        lastSantaCenter := some (20, 20), continuousStart := some 0,
        lastSampleTs := some 4, learningStartTs := some 0, lockedSanta := false,
        state := .learning,
        profile := { sizeMin := 40, sizeMax := 40, avgSpeed := 40,
                     hasColorSignature := false, movementHistory := [] } }).profile.sizeMin
      ≤ 40 := by
  refine (finalize_size_bounds_widen ⟨25, 300, 1/2⟩ 4 _ (by norm_num) (by norm_num)
    (by norm_num) (by norm_num) ?_).2.2.1
  unfold finalizeLearning
  rw [if_neg (by push_neg; exact ⟨by simp, by norm_num [continuousElapsed]⟩),
    if_neg (by push_neg; exact ⟨by norm_num, by norm_num⟩)]

/-- The learner state reached by a synthetic stream of 60 accepted samples
all of size 20 px (admissible: the per-sample gate only bounds the size
*ratio* to the first accepted sample within `[0.5, 2.0]`, and the color and
motion detectors accept any contour down to 20×20 px), zero jump, average
speed 40 px/s, 4 s continuous — against the default configuration
`min_santa_size = 25`. -/
def smallTargetLearnState : LearnState :=
  { samples := List.replicate 60 ((0 : ℚ), ⟨0, 0, 20, 20⟩),
    stableCount := 60, lostCount := 0, firstBbox := some ⟨0, 0, 20, 20⟩,
    lastSantaCenter := some (10, 10), continuousStart := some 0,
    lastSampleTs := some 4, learningStartTs := some 0, lockedSanta := false,
    state := .learning,
    profile := { sizeMin := 20, sizeMax := 20, avgSpeed := 40,
                 hasColorSignature := false, movementHistory := [] } }

theorem foldl_min_replicate (n : ℕ) (t : ℚ) (b : BBox) :
    (List.replicate n (t, b)).foldl (fun m s => min m (bboxSize s.2)) (bboxSize b)
      = bboxSize b := by
  induction n with
  | zero => rfl
  | succ m ih => rw [List.replicate_succ, List.foldl_cons, min_self]; exact ih

theorem observedMinSize_replicate (n : ℕ) (t : ℚ) (b : BBox) :
    observedMinSize (List.replicate (n + 1) (t, b)) = some (bboxSize b) := by
  rw [List.replicate_succ]
  show some ((List.replicate n (t, b)).foldl (fun m s => min m (bboxSize s.2))
    (bboxSize b)) = some (bboxSize b)
  rw [foldl_min_replicate]

/-- Counterexample for claim C8. The claim as stated fails: this committed
profile has observed minimum size 20, yet the frozen `size_min` is the
configured absolute minimum 25 (the clamp raised it above the observed
minimum), so `size_min ≤ observed_min` is violated. -/
theorem finalize_size_bounds_counterexample :
    (finalizeLearning ⟨25, 300, 1/2⟩ 4 smallTargetLearnState).lockedSanta = true ∧
    observedMinSize smallTargetLearnState.samples = some 20 ∧
    smallTargetLearnState.profile.sizeMin = 20 ∧
    (finalizeLearning ⟨25, 300, 1/2⟩ 4 smallTargetLearnState).profile.sizeMin = 25 ∧
    ¬((finalizeLearning ⟨25, 300, 1/2⟩ 4 smallTargetLearnState).profile.sizeMin ≤ 20) := by
  have hn1 : ¬(smallTargetLearnState.samples.length < 50 ∨
      continuousElapsed 4 smallTargetLearnState < 3) := by
    push_neg
    exact ⟨by simp [smallTargetLearnState], by norm_num [continuousElapsed, smallTargetLearnState]⟩
  have hn2 : ¬(smallTargetLearnState.profile.avgSpeed < 10 ∨
      smallTargetLearnState.profile.avgSpeed > 500) := by
    push_neg
    exact ⟨by norm_num [smallTargetLearnState], by norm_num [smallTargetLearnState]⟩
  have hlock : (finalizeLearning ⟨25, 300, 1/2⟩ 4 smallTargetLearnState).lockedSanta = true := by
    unfold finalizeLearning
    rw [if_neg hn1, if_neg hn2]
  have hmin25 : (finalizeLearning ⟨25, 300, 1/2⟩ 4 smallTargetLearnState).profile.sizeMin = 25 := by
    unfold finalizeLearning
    rw [if_neg hn1, if_neg hn2]
    show max 25 (smallTargetLearnState.profile.sizeMin -
      pyInt (((smallTargetLearnState.profile.sizeMax -
        smallTargetLearnState.profile.sizeMin : ℤ) : ℚ) * (1/2))) = 25
    norm_num [smallTargetLearnState, pyInt]
  refine ⟨hlock, ?_, rfl, hmin25, by rw [hmin25]; norm_num⟩
  show observedMinSize (List.replicate 60 ((0 : ℚ), (⟨0, 0, 20, 20⟩ : BBox))) = some 20
  rw [show (60 : ℕ) = 59 + 1 from rfl, observedMinSize_replicate]
  rfl

/-- The learner state after the first accepted detection (macro.py lines
846-853): first bbox `(100,100,40,40)` recorded, continuity timer started. -/
def stateAfterFirstSample : LearnState :=
  { samples := [], stableCount := 0, lostCount := 0,
    firstBbox := some ⟨100, 100, 40, 40⟩, lastSantaCenter := some (120, 120),
    continuousStart := some 0, lastSampleTs := some 0, learningStartTs := some 0,
    lockedSanta := false, state := .learning, profile := LearnProfile.initial }

/-- Claim C4, code bug. Processing the second accepted learning sample —
here the identical, perfectly well-formed bbox `(100,100,40,40)` on the
next tick — raises `NameError` (macro.py line 918 reads the undefined name
`roi_y`; the names `roi_x`, `roi_y`, `roi_x2` are defined only inside
`_validate_detection`, lines 1011-1013).  The sample-set and profile
mutations of lines 882-915 have already been applied when the exception is
raised, and `run`'s tick loop (lines 1926-3179) wraps its body in
`try/finally` with no `except`, so the exception propagates out of the
loop, contradicting the spec's "recoverable, never crashes the loop". -/
theorem processLearningSample_raises_name_error :
    (processLearningSample (fun _ => 0) (1/25) ⟨100, 100, 40, 40⟩
        stateAfterFirstSample).2 = some "NameError: name roi_y is not defined" ∧
    (processLearningSample (fun _ => 0) (1/25) ⟨100, 100, 40, 40⟩
        stateAfterFirstSample).1.samples.length = 1 := by
  unfold processLearningSample stateAfterFirstSample
  norm_num [bboxSize, bboxCenter, LearnProfile.initial, Int.fdiv]

/-- Claim C10. Before a profile is committed (`_locked_santa` false),
`_validate_detection` imposes no constraint: it returns `(True, "")` for
every bounding box and every frame (macro.py lines 989-990). -/
theorem validate_accepts_all_when_unlocked
    (profile : SantaProfile) (lastSantaCenter : Option (ℤ × ℤ))
    (positionJumpThreshold : ℤ) (tickInterval : ℚ)
    (colorSimilarityThreshold : ℚ) (b : BBox) (colorSim : Option ℚ) :
    validateDetection false profile lastSantaCenter positionJumpThreshold
      tickInterval colorSimilarityThreshold b colorSim = (true, "") := by
  rfl

/-! ## Lock-On state machine (`_initiate_lock_on`, `_update_lock_on`,
`_release_lock_on`, macro.py lines 1547-1621) -/

/-- Constant `self._movement_timeout_seconds = 2.0` (macro.py line 270). -/
def movementTimeoutSeconds : ℚ := 2

/-- Constant `self._stuck_detection_threshold = 10` (macro.py line 267). -/
def stuckDetectionThreshold : ℕ := 10

/-- Constant `self._max_bbox_history = 5` (macro.py line 266). -/
def maxBboxHistory : ℕ := 5

/-- The reason string passed to `_release_lock_on`. -/
inductive ReleaseReason
  | staticObject (timeStill : ℚ)
  | stuckFrames (frames : ℕ)
  | other (s : String)
deriving DecidableEq, Repr

/-- The lock-on tracking fields of `SantaMacro` read or written by
`_initiate_lock_on` / `_update_lock_on` / `_release_lock_on`.
`shootTracker`, `shootTmpl`, `shootRefBbox`, `lastValidBbox` are the
auxiliary tracking resources cleared on release (lines 1618-1621);
`releaseReason` records the reason argument of the last release (the
source logs it at line 1612). -/
structure LockOnState where
  lockedOn : Bool
  lockStartTs : Option ℚ
  lastMovementTs : Option ℚ
  bboxHistory : List BBox
  stuckCounter : ℕ
  shootTracker : Bool
  shootTmpl : Bool
  shootRefBbox : Option BBox
  lastValidBbox : Option BBox
  releaseReason : Option ReleaseReason
deriving DecidableEq, Repr

/-- Embeds `_release_lock_on` (macro.py lines 1609-1621): drop the lock and clear
every piece of tracking state. -/
def releaseLockOn (reason : ReleaseReason) (_st : LockOnState) : LockOnState :=
  { lockedOn := false, lockStartTs := none, lastMovementTs := none,
    bboxHistory := [], stuckCounter := 0, shootTracker := false,
    shootTmpl := false, shootRefBbox := none, lastValidBbox := none,
    releaseReason := some reason }

/-- Append to `_santa_bbox_history`, dropping the oldest entry past the
bound (macro.py lines 1605-1607). -/
def pushBboxHistory (b : BBox) (st : LockOnState) : LockOnState :=
  { st with bboxHistory :=
      if maxBboxHistory < (st.bboxHistory ++ [b]).length then
        (st.bboxHistory ++ [b]).drop 1
      else st.bboxHistory ++ [b] }

/-- The release test on the no-movement timer (macro.py lines 1586-1591):
`some timeStill` when `_last_movement_ts` is set and `now` is more than the
movement timeout past it. -/
def timeStillRelease (now : ℚ) : Option ℚ → Option ℚ
  | some tm => if movementTimeoutSeconds < now - tm then some (now - tm) else none
  | none => none

/-- The `distance < 10` arm of `_update_lock_on` (macro.py lines 1583-1597),
taking the state after `self._stuck_counter += 1`. -/
def stuckArm (now : ℚ) (b : BBox) (st1 : LockOnState) : LockOnState :=
  match timeStillRelease now st1.lastMovementTs with
  | some timeStill => releaseLockOn (.staticObject timeStill) st1
  | none =>
    if stuckDetectionThreshold ≤ st1.stuckCounter then
      releaseLockOn (.stuckFrames st1.stuckCounter) st1
    else pushBboxHistory b st1

/-- The body of `_update_lock_on` when the history is nonempty, with
`lastB = self._santa_bbox_history[-1]`; `math.hypot` compared against the
literal 10 is embedded in squared form (`< 100`). -/
def updateLockOnWithLast (now : ℚ) (b lastB : BBox) (st : LockOnState) : LockOnState :=
  if ((bboxCenter b).1 - (bboxCenter lastB).1) * ((bboxCenter b).1 - (bboxCenter lastB).1)
      + ((bboxCenter b).2 - (bboxCenter lastB).2) * ((bboxCenter b).2 - (bboxCenter lastB).2)
      < 100 then
    stuckArm now b { st with stuckCounter := st.stuckCounter + 1 }
  else pushBboxHistory b { st with stuckCounter := 0, lastMovementTs := some now }

/-- Embeds `_update_lock_on` (macro.py lines 1573-1607). -/
def updateLockOn (now : ℚ) (b : BBox) (st : LockOnState) : LockOnState :=
  match st.bboxHistory.getLast? with
  | some lastB => updateLockOnWithLast now b lastB st
  | none => pushBboxHistory b { st with lastMovementTs := some now }

theorem updateLockOn_getLast_some {st : LockOnState} {lastB : BBox} (now : ℚ) (b : BBox)
    (h : st.bboxHistory.getLast? = some lastB) :
    updateLockOn now b st = updateLockOnWithLast now b lastB st := by
  unfold updateLockOn
  rw [h]

/-- The lock-on fields set by the tail of `_initiate_lock_on` (macro.py
lines 1565-1570) once the size/area/aspect gates have passed. -/
def initiateLockOn (now : ℚ) (b : BBox) (st : LockOnState) : LockOnState :=
  { st with
      lockedOn := true
      lockStartTs := some now
      lastMovementTs := some now
      bboxHistory := [b]
      stuckCounter := 0 }

/-- Feed a stream of timestamped boxes to `_update_lock_on`, which the run
loop calls only while `_locked_on_santa` holds (macro.py lines 2855-2881). -/
def feedLockOn (b : BBox) (ts : List ℚ) (st : LockOnState) : LockOnState :=
  ts.foldl (fun s t => if s.lockedOn then updateLockOn t b s else s) st

/-- The lock was released with one of the two stuck/no-movement reasons and
all tracking state was cleared. -/
def releasedStuck (s : LockOnState) : Prop :=
  s.lockedOn = false ∧ s.lockStartTs = none ∧ s.lastMovementTs = none ∧
  s.bboxHistory = [] ∧ s.stuckCounter = 0 ∧ s.shootTracker = false ∧
  s.shootTmpl = false ∧ s.shootRefBbox = none ∧ s.lastValidBbox = none ∧
  ((∃ t, s.releaseReason = some (.staticObject t)) ∨
    (∃ n, s.releaseReason = some (.stuckFrames n)))

/-- Invariant during a zero-displacement feed: either released as stuck, or
still locked with the stuck counter equal to the number of processed
updates (necessarily below the threshold) and the same box at the end of
the history. -/
def stuckFeedInv (b : BBox) (k : ℕ) (s : LockOnState) : Prop :=
  releasedStuck s ∨
    (s.lockedOn = true ∧ s.stuckCounter = k ∧ k < stuckDetectionThreshold ∧
      s.bboxHistory.getLast? = some b)

theorem getLast?_concat_eq {α : Type} (l : List α) (a : α) :
    (l ++ [a]).getLast? = some a := by
  rw [List.getLast?_append_cons]
  rfl

theorem pushBboxHistory_getLast (b : BBox) (st : LockOnState) :
    (pushBboxHistory b st).bboxHistory.getLast? = some b := by
  show (if maxBboxHistory < (st.bboxHistory ++ [b]).length then
      (st.bboxHistory ++ [b]).drop 1
    else st.bboxHistory ++ [b]).getLast? = some b
  by_cases hlen : maxBboxHistory < (st.bboxHistory ++ [b]).length
  · rw [if_pos hlen]
    cases hh : st.bboxHistory with
    | nil =>
      rw [hh] at hlen
      simp [maxBboxHistory] at hlen
    | cons x xs =>
      show ((xs ++ [b]) : List BBox).getLast? = some b
      rw [getLast?_concat_eq]
  · rw [if_neg hlen, getLast?_concat_eq]

theorem updateLockOn_stuck_step (b : BBox) (t : ℚ) (k : ℕ) (s : LockOnState)
    (h : stuckFeedInv b k s) :
    stuckFeedInv b (k + 1) (if s.lockedOn then updateLockOn t b s else s) := by
  rcases h with hrel | ⟨hlock, hstuck, hlt, hlast⟩
  · rw [if_neg (by rw [hrel.1]; exact Bool.noConfusion)]
    exact Or.inl hrel
  · rw [if_pos hlock, updateLockOn_getLast_some t b hlast]
    unfold updateLockOnWithLast
    rw [if_pos (by rw [sub_self, sub_self]; norm_num)]
    unfold stuckArm
    cases htr : timeStillRelease t
        (({ s with stuckCounter := s.stuckCounter + 1 } : LockOnState).lastMovementTs) with
    | some timeStill =>
      exact Or.inl ⟨rfl, rfl, rfl, rfl, rfl, rfl, rfl, rfl, rfl,
        Or.inl ⟨timeStill, rfl⟩⟩
    | none =>
      show stuckFeedInv b (k + 1)
        (if stuckDetectionThreshold ≤ s.stuckCounter + 1 then
          releaseLockOn (.stuckFrames (s.stuckCounter + 1))
            { s with stuckCounter := s.stuckCounter + 1 }
        else pushBboxHistory b { s with stuckCounter := s.stuckCounter + 1 })
      by_cases hthr : stuckDetectionThreshold ≤ s.stuckCounter + 1
      · rw [if_pos hthr]
        exact Or.inl ⟨rfl, rfl, rfl, rfl, rfl, rfl, rfl, rfl, rfl,
          Or.inr ⟨s.stuckCounter + 1, rfl⟩⟩
      · rw [if_neg hthr]
        refine Or.inr ⟨hlock, by show s.stuckCounter + 1 = k + 1; rw [hstuck],
          by omega, pushBboxHistory_getLast b _⟩

theorem feedLockOn_stuck (b : BBox) (ts : List ℚ) (k : ℕ) (s : LockOnState)
    (h : stuckFeedInv b k s) :
    stuckFeedInv b (k + ts.length) (feedLockOn b ts s) := by
  induction ts generalizing k s with
  | nil => exact h
  | cons t rest ih =>
    have hstep := updateLockOn_stuck_step b t k s h
    have hres := ih (k + 1) _ hstep
    unfold feedLockOn at hres ⊢
    rw [List.foldl_cons, List.length_cons]
    have harith : k + 1 + rest.length = k + (rest.length + 1) := by omega
    rw [← harith]
    exact hres

/-- Claim C6. Feeding the lock-on machine 15 identical bounding boxes (one
initiating box plus 14 zero-displacement updates) across a window
exceeding the movement timeout releases the lock with a stuck/no-movement
reason, and the release clears all lock tracking state (history, counters,
timestamps, tracker resources).  (The stuck-counter ceiling of 10 already
forces the release; the window hypothesis mirrors the scenario of the claim.) -/
theorem stuck_lock_released (b : BBox) (t0 : ℚ) (ts : List ℚ) (s : LockOnState)
    (hlen : ts.length = 14)
    (_hwin : ∃ tl, ts.getLast? = some tl ∧
      movementTimeoutSeconds < tl - t0) :
    releasedStuck (feedLockOn b ts (initiateLockOn t0 b s)) := by
  have hinv : stuckFeedInv b 0 (initiateLockOn t0 b s) := by
    refine Or.inr ⟨rfl, rfl, by norm_num [stuckDetectionThreshold], ?_⟩
    show ([b] : List BBox).getLast? = some b
    rfl
  have hfin := feedLockOn_stuck b ts 0 (initiateLockOn t0 b s) hinv
  rw [hlen] at hfin
  rcases hfin with hrel | ⟨-, -, hlt, -⟩
  · exact hrel
  · exact absurd hlt (by norm_num [stuckDetectionThreshold])

/-- Witness for C6: a concrete run — initiation at `t = 0` followed by 14
identical boxes, the last at `t = 3 s` (window 3 s > 2 s timeout) — ends
unlocked with empty history. -/
theorem stuck_lock_released_witness :
    releasedStuck (feedLockOn ⟨100, 100, 40, 40⟩
      (List.replicate 13 (1/5 : ℚ) ++ [3])
      (initiateLockOn 0 ⟨100, 100, 40, 40⟩
        { lockedOn := false, lockStartTs := none, lastMovementTs := none,
          bboxHistory := [], stuckCounter := 0, shootTracker := false,
          shootTmpl := false, shootRefBbox := none, lastValidBbox := none,
          releaseReason := none })) := by
  refine stuck_lock_released ⟨100, 100, 40, 40⟩ 0 _ _ ?_ ⟨3, getLast?_concat_eq _ _, ?_⟩
  · simp
  · norm_num [movementTimeoutSeconds]

/-! ## Camera steering (`run` arrow-key sites, macro.py lines 1967-1980,
2275-2320, 2322-2368, 2394-2423; release sites 2106-2113, 2148-2167,
2240-2250, 2540-2550; `_force_release_all_arrows` lines 490-513; stop
cleanup lines 1834-1845 and the loop `finally` block lines 3158-3171) -/

/-- A camera pan direction. -/
inductive Dir
  | left
  | right
deriving DecidableEq, Repr

/-- Input-sink events emitted by the steering code. -/
inductive CamEvent
  | keyUp (d : Dir)
  | keyDown (d : Dir)
deriving DecidableEq, Repr

/-- The held-key bookkeeping shared by the tick loop and hotkey thread:
`current_arrow_key` (`none`/`left`/`right`), `is_holding_arrow`, and the
`camera_keys_pressed` set, modelled by one membership flag per key. -/
structure CamState where
  currentArrowKey : Option Dir
  isHoldingArrow : Bool
  leftPressed : Bool
  rightPressed : Bool
deriving DecidableEq, Repr

/-- Initial state: no key held (macro.py constructor). -/
def camInit : CamState :=
  { currentArrowKey := none, isHoldingArrow := false,
    leftPressed := false, rightPressed := false }

/-- Record `camera_keys_pressed.discard(d)`. -/
def camDiscard (d : Dir) (s : CamState) : CamState :=
  match d with
  | .left => { s with leftPressed := false }
  | .right => { s with rightPressed := false }

/-- Record `camera_keys_pressed.add(d)`. -/
def camAdd (d : Dir) (s : CamState) : CamState :=
  match d with
  | .left => { s with leftPressed := true }
  | .right => { s with rightPressed := true }

/-- Record `camera_keys_pressed.clear()`. -/
def camClear (s : CamState) : CamState :=
  { s with leftPressed := false, rightPressed := false }

/-- The common steering press pattern (macro.py lines 2281-2320, 2332-2360,
2397-2423): if the requested direction is not already held, release the
currently held key (keyUp + discard), then press the new one (keyDown +
add) and update the bookkeeping. -/
def pressArrowStep (d : Dir) (s : CamState) : CamState × List CamEvent :=
  if s.currentArrowKey = some d then (s, [])
  else
    match s.currentArrowKey with
    | some c =>
      (camAdd d { (camDiscard c s) with currentArrowKey := some d, isHoldingArrow := true },
        [CamEvent.keyUp c, CamEvent.keyDown d])
    | none =>
      (camAdd d { s with currentArrowKey := some d, isHoldingArrow := true },
        [CamEvent.keyDown d])

/-- The release pattern (macro.py lines 2106-2113, 2148-2154, 2161-2167,
2240-2250, 2312-2320, 2361-2368, 2540-2550): if a key is held, keyUp it,
discard it from the set and clear the bookkeeping. -/
def releaseArrowStep (s : CamState) : CamState × List CamEvent :=
  match s.currentArrowKey with
  | some c =>
    ({ (camDiscard c s) with currentArrowKey := none, isHoldingArrow := false },
      [CamEvent.keyUp c])
  | none => (s, [])

/-- The search-phase hold-left site (macro.py lines 1967-1980): release any
other held arrow, press left, clear the key set and re-add left. -/
def searchHoldLeftStep (s : CamState) : CamState × List CamEvent :=
  if s.isHoldingArrow = false ∨ s.currentArrowKey ≠ some Dir.left then
    (camAdd .left { camClear s with
        currentArrowKey := some Dir.left
        isHoldingArrow := true },
      (match s.currentArrowKey with
        | some c => if c ≠ Dir.left then [CamEvent.keyUp c] else []
        | none => []) ++ [CamEvent.keyDown .left])
  else (s, [])

/-- Embeds `_force_release_all_arrows` (macro.py lines 490-513) and the stop /
`finally` cleanup sites (lines 1834-1845, 3161-3168): keyUp both arrows,
clear the set and the bookkeeping. -/
def forceReleaseAllStep (s : CamState) : CamState × List CamEvent :=
  ({ (camClear s) with currentArrowKey := none, isHoldingArrow := false },
    [CamEvent.keyUp .left, CamEvent.keyUp .right])

/-- One mutation of the held-arrow state performed by the run loop. -/
inductive CamStep : CamState → CamState → List CamEvent → Prop
  | press (d : Dir) (s : CamState) :
      CamStep s (pressArrowStep d s).1 (pressArrowStep d s).2
  | release (s : CamState) :
      CamStep s (releaseArrowStep s).1 (releaseArrowStep s).2
  | searchHoldLeft (s : CamState) :
      CamStep s (searchHoldLeftStep s).1 (searchHoldLeftStep s).2
  | forceReleaseAll (s : CamState) :
      CamStep s (forceReleaseAllStep s).1 (forceReleaseAllStep s).2

/-- States of the held-key bookkeeping reachable by the run loop. -/
inductive CamReachable : CamState → Prop
  | init : CamReachable camInit
  | step {s s13 : CamState} {evs : List CamEvent} :
      CamReachable s → CamStep s s13 evs → CamReachable s13

/-- The pressed-key set mirrors `current_arrow_key` exactly. -/
def camConsistent (s : CamState) : Prop :=
  s.leftPressed = decide (s.currentArrowKey = some Dir.left) ∧
  s.rightPressed = decide (s.currentArrowKey = some Dir.right)

theorem camStep_preserves_consistent {s s2 : CamState} {evs : List CamEvent}
    (hstep : CamStep s s2 evs) (h : camConsistent s) : camConsistent s2 := by
  obtain ⟨hL, hR⟩ := h
  cases hstep with
  | press d st =>
    unfold pressArrowStep
    by_cases hcur : s.currentArrowKey = some d
    · rw [if_pos hcur]
      exact ⟨hL, hR⟩
    · rw [if_neg hcur]
      cases hc : s.currentArrowKey with
      | some c =>
        cases c <;> cases d <;>
          simp_all [camAdd, camDiscard, camConsistent]
      | none =>
        cases d <;> simp_all [camAdd, camConsistent]
  | release st =>
    unfold releaseArrowStep
    cases hc : s.currentArrowKey with
    | some c =>
      cases c <;> simp_all [camDiscard, camConsistent]
    | none => exact ⟨hL, hR⟩
  | searchHoldLeft st =>
    unfold searchHoldLeftStep
    by_cases hcond : s.isHoldingArrow = false ∨ s.currentArrowKey ≠ some Dir.left
    · rw [if_pos hcond]
      simp [camAdd, camClear, camConsistent]
    · rw [if_neg hcond]
      exact ⟨hL, hR⟩
  | forceReleaseAll st =>
    simp [forceReleaseAllStep, camClear, camConsistent]

theorem camReachable_consistent {s : CamState} (h : CamReachable s) :
    camConsistent s := by
  induction h with
  | init => exact ⟨rfl, rfl⟩
  | step _ hstep ih => exact camStep_preserves_consistent hstep ih

/-- Claim C7. (i) In every state of the held-key bookkeeping reachable by the
run loop, `left` and `right` are never both held.  (ii) Every direction
switch releases the currently held key before pressing the opposite one:
whenever a step emits a `keyDown d` while a different direction `c` was
held, its event trace is exactly `[keyUp c, keyDown d]` — the release
precedes the press. -/
theorem camera_steering_exclusive :
    (∀ s : CamState, CamReachable s →
      ¬(s.leftPressed = true ∧ s.rightPressed = true)) ∧
    (∀ (s s2 : CamState) (evs : List CamEvent) (c d : Dir),
      CamStep s s2 evs → CamEvent.keyDown d ∈ evs →
      s.currentArrowKey = some c → c ≠ d →
      evs = [CamEvent.keyUp c, CamEvent.keyDown d]) := by
  constructor
  · intro s hreach hboth
    obtain ⟨hLtrue, hRtrue⟩ := hboth
    obtain ⟨hL, hR⟩ := camReachable_consistent hreach
    have h1 : s.currentArrowKey = some Dir.left :=
      of_decide_eq_true (by rw [← hL, hLtrue])
    have h2 : s.currentArrowKey = some Dir.right :=
      of_decide_eq_true (by rw [← hR, hRtrue])
    rw [h1] at h2
    simp at h2
  · intro s s2 evs c d hstep hmem hcur hne
    cases hstep with
    | press e st =>
      unfold pressArrowStep at hmem ⊢
      by_cases hc : s.currentArrowKey = some e
      · rw [if_pos hc] at hmem
        exact absurd hmem (List.not_mem_nil _)
      · rw [if_neg hc] at hmem ⊢
        rw [hcur] at hmem ⊢
        simp only [List.mem_cons, List.not_mem_nil, or_false] at hmem
        rcases hmem with h | h
        · exact CamEvent.noConfusion h
        · have hd : e = d := (CamEvent.keyDown.inj h).symm
          subst hd
          rfl
    | release st =>
      unfold releaseArrowStep at hmem
      rw [hcur] at hmem
      simp only [List.mem_cons, List.not_mem_nil, or_false] at hmem
      exact CamEvent.noConfusion hmem
    | searchHoldLeft st =>
      by_cases hcond : s.isHoldingArrow = false ∨ s.currentArrowKey ≠ some Dir.left
      · unfold searchHoldLeftStep at hmem ⊢
        rw [if_pos hcond] at hmem ⊢
        rw [hcur] at hmem ⊢
        cases c with
        | left =>
          have hmem2 : CamEvent.keyDown d ∈
              ([CamEvent.keyDown Dir.left] : List CamEvent) := hmem
          rw [List.mem_singleton] at hmem2
          exact absurd (CamEvent.keyDown.inj hmem2).symm hne
        | right =>
          have hmem2 : CamEvent.keyDown d ∈
              ([CamEvent.keyUp Dir.right, CamEvent.keyDown Dir.left] :
                List CamEvent) := hmem
          simp only [List.mem_cons, List.not_mem_nil, or_false] at hmem2
          rcases hmem2 with h | h
          · exact CamEvent.noConfusion h
          · have hd : Dir.left = d := (CamEvent.keyDown.inj h).symm
            subst hd
            rfl
      · have hmem2 : CamEvent.keyDown d ∈ ([] : List CamEvent) := by
          unfold searchHoldLeftStep at hmem
          rw [if_neg hcond] at hmem
          exact hmem
        exact absurd hmem2 (List.not_mem_nil _)
    | forceReleaseAll st =>
      simp only [forceReleaseAllStep, List.mem_cons, List.not_mem_nil,
        or_false] at hmem
      rcases hmem with h | h
      · exact CamEvent.noConfusion h
      · exact CamEvent.noConfusion h

/-- Witness for C7: the state reached by pressing left, then switching to
right, never holds both keys; and the switch trace is exactly
release-left-then-press-right. -/
theorem camera_steering_exclusive_witness :
    ¬((pressArrowStep .right (pressArrowStep .left camInit).1).1.leftPressed = true ∧
      (pressArrowStep .right (pressArrowStep .left camInit).1).1.rightPressed = true) ∧
    (pressArrowStep .right (pressArrowStep .left camInit).1).2 =
      [CamEvent.keyUp .left, CamEvent.keyDown .right] := by
  constructor
  · exact camera_steering_exclusive.1 _
      (CamReachable.step (CamReachable.step CamReachable.init
        (CamStep.press .left camInit)) (CamStep.press .right _))
  · exact camera_steering_exclusive.2 _ _ _ Dir.left Dir.right
      (CamStep.press .right _) (by decide) (by decide) (by decide)

/-! ## Phase sequencer: cooldown exit (run loop, macro.py lines 2117-2185) -/

/-- Attack phase values `"idle" | "load" | "fire" | "cooldown"`. -/
inductive AttackPhase
  | idle
  | load
  | fire
  | cooldown
deriving DecidableEq, Repr

/-- Search state values `"idle" | "searching_left" | "searching_right"`. -/
inductive SearchState
  | idle
  | searchingLeft
  | searchingRight
deriving DecidableEq, Repr

/-- A YOLO detection box `(x1, y1, x2, y2)` as stored in `best_santa`. -/
structure YoloBox where
  x1 : ℤ
  y1 : ℤ
  x2 : ℤ
  y2 : ℤ
deriving DecidableEq, Repr

/-- The phase-sequencer fields of `SantaMacro` touched by the cooldown-exit
block, plus the camera bookkeeping it releases. -/
structure SeqState where
  attackPhase : AttackPhase
  attackPhaseStart : Option ℚ
  searchState : SearchState
  consecutiveDetections : ℕ
  detectionMovementHistory : List (ℤ × ℤ)
  hasAttackedSuccessfully : Bool
  attackCommitted : Bool
  cam : CamState
deriving Repr

/-- Externally visible actions of the cooldown-exit block, in program
order: the discrete commit keystroke `pydirectinput.press('1')`, the
assignment to `attack_phase`, arrow-key traffic, and the start of the
custom attack input sequence. -/
inductive SeqEvent
  | pressOne
  | phaseSet (p : AttackPhase)
  | camEv (e : CamEvent)
  | attackInputDown
deriving DecidableEq, Repr

/-- Embeds `abort_zone_left = int(self.roi["width"] * 0.20)` (macro.py line 2131).
For capture widths the float product `W * 0.20` truncates to `⌊W/5⌋`, the
exact rational value used here. -/
def abortZoneLeft (W : ℕ) : ℤ := ((W * 20 / 100 : ℕ) : ℤ)

/-- Embeds `abort_zone_right = int(self.roi["width"] * 0.80)` (macro.py line 2132). -/
def abortZoneRight (W : ℕ) : ℤ := ((W * 80 / 100 : ℕ) : ℤ)

/-- Embeds `santa_cx = x1 + w // 2` with `w = x2 - x1` (macro.py lines 2124-2126). -/
def yoloCenterX (box : YoloBox) : ℤ := box.x1 + (box.x2 - box.x1).fdiv 2

/-- The cooldown-exit block of the run loop (macro.py lines 2117-2185),
entered when `attack_phase == "cooldown"` and a detection is present this
tick.  `W` is `self.roi["width"]`, `cooldownDur` is
`self._get_cooldown_duration()`, and `customReady` is
`custom_attack_manager and is_custom_enabled() and not player.playing`
(lines 2181-2182).  Returns the mutated state and the emitted actions in
program order. -/
def cooldownStep (W : ℕ) (cooldownDur : ℚ) (customReady : Bool) (now : ℚ)
    (bestSanta : Option YoloBox) (st : SeqState) : SeqState × List SeqEvent :=
  match st.attackPhase, bestSanta with
  | .cooldown, some box =>
    let start := st.attackPhaseStart.getD now
    let st0 := { st with attackPhaseStart := some start }
    if cooldownDur ≤ now - start then
      let cx := yoloCenterX box
      if cx < abortZoneLeft W ∨ abortZoneRight W < cx then
        ({ st0 with
            attackPhase := .idle
            consecutiveDetections := 0
            detectionMovementHistory := []
            hasAttackedSuccessfully := true
            cam := (releaseArrowStep st0.cam).1
            searchState := .searchingLeft },
         [SeqEvent.pressOne, SeqEvent.phaseSet .idle] ++
           (releaseArrowStep st0.cam).2.map SeqEvent.camEv)
      else
        ({ st0 with
            cam := (releaseArrowStep st0.cam).1
            consecutiveDetections := 0
            attackPhase := .load
            attackPhaseStart := some now
            attackCommitted := customReady },
         (releaseArrowStep st0.cam).2.map SeqEvent.camEv ++
           [SeqEvent.pressOne, SeqEvent.phaseSet .load] ++
           (if customReady then [SeqEvent.attackInputDown] else []))
    else (st0, [])
  | _, _ => (st, [])

/-- Event `a` occurs strictly before `b` in the event list. -/
def eventsBefore (evs : List SeqEvent) (a b : SeqEvent) : Prop :=
  ∃ i j, i < j ∧ evs.get? i = some a ∧ evs.get? j = some b

theorem cooldownStep_cooldown_some (W : ℕ) (cooldownDur : ℚ)
    (customReady : Bool) (now : ℚ) (box : YoloBox) (st : SeqState)
    (hphase : st.attackPhase = .cooldown) :
    cooldownStep W cooldownDur customReady now (some box) st =
      (let start := st.attackPhaseStart.getD now
       let st0 := { st with attackPhaseStart := some start }
       if cooldownDur ≤ now - start then
        let cx := yoloCenterX box
        if cx < abortZoneLeft W ∨ abortZoneRight W < cx then
          ({ st0 with
              attackPhase := .idle
              consecutiveDetections := 0
              detectionMovementHistory := []
              hasAttackedSuccessfully := true
              cam := (releaseArrowStep st0.cam).1
              searchState := .searchingLeft },
           [SeqEvent.pressOne, SeqEvent.phaseSet .idle] ++
             (releaseArrowStep st0.cam).2.map SeqEvent.camEv)
        else
          ({ st0 with
              cam := (releaseArrowStep st0.cam).1
              consecutiveDetections := 0
              attackPhase := .load
              attackPhaseStart := some now
              attackCommitted := customReady },
           (releaseArrowStep st0.cam).2.map SeqEvent.camEv ++
             [SeqEvent.pressOne, SeqEvent.phaseSet .load] ++
             (if customReady then [SeqEvent.attackInputDown] else []))
       else (st0, [])) := by
  unfold cooldownStep
  rw [hphase]

/-- Claim C5. When the cooldown duration has elapsed and a detection is
present: the commit keystroke `'1'` is pressed in every exit branch; if the
fused horizontal center lies outside `[int(0.20*W), int(0.80*W)]` the phase
goes to `idle` (not `load`) and search is forced (`searching_left`), with
the keystroke emitted before the phase change; otherwise the phase goes to
`load`, again with the keystroke emitted before the phase change. -/
theorem cooldown_abort_and_commit_key
    (W : ℕ) (cooldownDur : ℚ) (customReady : Bool) (now t0 : ℚ)
    (box : YoloBox) (st : SeqState)
    (hphase : st.attackPhase = .cooldown)
    (hstart : st.attackPhaseStart = some t0)
    (helapsed : cooldownDur ≤ now - t0) :
    SeqEvent.pressOne ∈
      (cooldownStep W cooldownDur customReady now (some box) st).2 ∧
    ((yoloCenterX box < abortZoneLeft W ∨ abortZoneRight W < yoloCenterX box) →
      (cooldownStep W cooldownDur customReady now (some box) st).1.attackPhase
          = .idle ∧
      (cooldownStep W cooldownDur customReady now (some box) st).1.searchState
          = .searchingLeft ∧
      eventsBefore (cooldownStep W cooldownDur customReady now (some box) st).2
        SeqEvent.pressOne (SeqEvent.phaseSet .idle)) ∧
    (¬(yoloCenterX box < abortZoneLeft W ∨ abortZoneRight W < yoloCenterX box) →
      (cooldownStep W cooldownDur customReady now (some box) st).1.attackPhase
          = .load ∧
      eventsBefore (cooldownStep W cooldownDur customReady now (some box) st).2
        SeqEvent.pressOne (SeqEvent.phaseSet .load)) := by
  rw [cooldownStep_cooldown_some W cooldownDur customReady now box st hphase]
  rw [hstart]
  simp only [Option.getD_some]
  rw [if_pos helapsed]
  by_cases hzone : yoloCenterX box < abortZoneLeft W ∨
      abortZoneRight W < yoloCenterX box
  · rw [if_pos hzone]
    refine ⟨List.mem_cons_self _ _, ?_, fun hn => absurd hzone hn⟩
    intro _
    exact ⟨rfl, rfl, 0, 1, by norm_num, rfl, rfl⟩
  · rw [if_neg hzone]
    refine ⟨?_, fun hy => absurd hy hzone, ?_⟩
    · cases hc : st.cam.currentArrowKey with
      | some c =>
        have : (cooldownStep W cooldownDur customReady now (some box) st).2 =
          (cooldownStep W cooldownDur customReady now (some box) st).2 := rfl
        show SeqEvent.pressOne ∈
          (releaseArrowStep { st with attackPhaseStart := some t0 }.cam).2.map
              SeqEvent.camEv ++
            [SeqEvent.pressOne, SeqEvent.phaseSet .load] ++
            (if customReady then [SeqEvent.attackInputDown] else [])
        unfold releaseArrowStep
        rw [show ({ st with attackPhaseStart := some t0 } : SeqState).cam
            = st.cam from rfl, hc]
        exact List.mem_append_left _ (List.mem_append_right _
          (List.mem_cons_self _ _))
      | none =>
        show SeqEvent.pressOne ∈
          (releaseArrowStep { st with attackPhaseStart := some t0 }.cam).2.map
              SeqEvent.camEv ++
            [SeqEvent.pressOne, SeqEvent.phaseSet .load] ++
            (if customReady then [SeqEvent.attackInputDown] else [])
        unfold releaseArrowStep
        rw [show ({ st with attackPhaseStart := some t0 } : SeqState).cam
            = st.cam from rfl, hc]
        exact List.mem_append_left _ (List.mem_append_right _
          (List.mem_cons_self _ _))
    · intro _
      refine ⟨rfl, ?_⟩
      cases hc : st.cam.currentArrowKey with
      | some c =>
        show eventsBefore
          ((releaseArrowStep { st with attackPhaseStart := some t0 }.cam).2.map
              SeqEvent.camEv ++
            [SeqEvent.pressOne, SeqEvent.phaseSet .load] ++
            (if customReady then [SeqEvent.attackInputDown] else []))
          SeqEvent.pressOne (SeqEvent.phaseSet .load)
        unfold releaseArrowStep
        rw [show ({ st with attackPhaseStart := some t0 } : SeqState).cam
            = st.cam from rfl, hc]
        exact ⟨1, 2, by norm_num, rfl, rfl⟩
      | none =>
        show eventsBefore
          ((releaseArrowStep { st with attackPhaseStart := some t0 }.cam).2.map
              SeqEvent.camEv ++
            [SeqEvent.pressOne, SeqEvent.phaseSet .load] ++
            (if customReady then [SeqEvent.attackInputDown] else []))
          SeqEvent.pressOne (SeqEvent.phaseSet .load)
        unfold releaseArrowStep
        rw [show ({ st with attackPhaseStart := some t0 } : SeqState).cam
            = st.cam from rfl, hc]
        exact ⟨0, 1, by norm_num, rfl, rfl⟩

/-- Witness for C5: capture width 1000, cooldown 6 s elapsed, target at
x-center 150 < 200 — the cycle aborts to idle with forced search, and the
keystroke is emitted first. -/
theorem cooldown_abort_and_commit_key_witness :
    (cooldownStep 1000 6 false 10 (some ⟨100, 300, 200, 400⟩)
      { attackPhase := .cooldown, attackPhaseStart := some 0,
        searchState := .idle, consecutiveDetections := 3,
        detectionMovementHistory := [], hasAttackedSuccessfully := false,
        attackCommitted := false, cam := camInit }).1.attackPhase
      = AttackPhase.idle ∧
    SeqEvent.pressOne ∈
      (cooldownStep 1000 6 false 10 (some ⟨100, 300, 200, 400⟩)
        { attackPhase := .cooldown, attackPhaseStart := some 0,
          searchState := .idle, consecutiveDetections := 3,
          detectionMovementHistory := [], hasAttackedSuccessfully := false,
          attackCommitted := false, cam := camInit }).2 := by
  have h := cooldown_abort_and_commit_key 1000 6 false 10 0
    ⟨100, 300, 200, 400⟩
    { attackPhase := .cooldown, attackPhaseStart := some 0,
      searchState := .idle, consecutiveDetections := 3,
      detectionMovementHistory := [], hasAttackedSuccessfully := false,
      attackCommitted := false, cam := camInit }
    rfl rfl (by norm_num)
  have hzone : yoloCenterX ⟨100, 300, 200, 400⟩ < abortZoneLeft 1000 ∨
      abortZoneRight 1000 < yoloCenterX ⟨100, 300, 200, 400⟩ := by
    left
    show (100 + (200 - 100 : ℤ).fdiv 2) < ((1000 * 20 / 100 : ℕ) : ℤ)
    decide
  exact ⟨(h.2.1 hzone).1, h.1⟩

/-! ## Detector bank (`_match_templates` lines 612-647, `_detect_motion_color`
lines 649-691, `_detect_motion` lines 729-811) -/

/-- A contour as consumed by the detectors: its `cv2.contourArea` and its
`cv2.boundingRect` in ROI-relative pixel coordinates.  Contours are
pixel-content: each frame enters a detector as the contour list the cv2
pipeline extracts from it. -/
structure Contour where
  area : ℚ
  x : ℕ
  y : ℕ
  w : ℕ
  h : ℕ
deriving DecidableEq, Repr

/-- A returned detection: absolute bbox plus confidence (`DetectionResult`
with a present bbox). -/
structure Det where
  x : ℤ
  y : ℤ
  w : ℕ
  h : ℕ
  confidence : ℚ
deriving DecidableEq, Repr

/-- Python `max(contours, key=cv2.contourArea)`: first contour of maximal
area. -/
def largestContour : List Contour → Option Contour
  | [] => none
  | c :: rest => some (rest.foldl (fun best d => if best.area < d.area then d else best) c)

/-- The gate applied to the largest red contour in `_detect_motion_color`
(macro.py lines 671-691): minimum area 30, minimum 20×20 extent, and the
ignored-top-band rejection, then the absolute bbox with area-scaled
confidence. -/
def colorGate (roiLeft roiTop : ℤ) (ignoredTop : ℕ) (largest : Contour) : Option Det :=
  if largest.area < 30 then none
  else if largest.w < 20 ∨ largest.h < 20 then none
  else if largest.y < ignoredTop then none
  else some
    { x := roiLeft + largest.x, y := roiTop + largest.y,
      w := largest.w, h := largest.h,
      confidence := min (95/100) (7/10 + largest.area / 5000) }

/-- Embeds `_detect_motion_color` (macro.py lines 649-691) as a function of the
red-mask contours of the frame. -/
def detectMotionColor (roiLeft roiTop : ℤ) (ignoredTop : ℕ)
    (contours : List Contour) : Option Det :=
  match largestContour contours with
  | none => none
  | some largest => colorGate roiLeft roiTop ignoredTop largest

/-- The tail of `_detect_motion` (macro.py lines 779-811) applied to the
selected largest contour: the relaxed-area tier (15 % of `min_area` when a
last valid bbox is tracked), the 20×20 floor, the ignored-top-band
rejection, and the area-scaled confidence. -/
def motionGate (roiLeft roiTop : ℤ) (roiW roiH : ℕ) (ignoredTop : ℕ)
    (minArea : ℚ) (hasLastValidBbox : Bool) (largest : Contour) : Option Det :=
  if largest.area < minArea * (20/100) ∧ hasLastValidBbox = false then none
  else
    if largest.w < 20 ∨ largest.h < 20 then none
    else if largest.y < ignoredTop then none
    else
      let area := if largest.area < minArea * (20/100) then minArea * (15/100)
        else largest.area
      let sizeFactor := min 1 (area / max 1 (((roiW * roiH : ℕ) : ℚ) * (8/100)))
      let baseConf := min (95/100) (sizeFactor * (9/10) + (8/100))
      some
        { x := roiLeft + largest.x, y := roiTop + largest.y,
          w := largest.w, h := largest.h,
          confidence := if hasLastValidBbox then min (95/100) (baseConf + (5/100))
            else baseConf }

/-- Embeds `_detect_motion` (macro.py lines 729-811) as a function of the
frame-difference contours: select the largest contour of area at least
`min_area` outside the top band, falling back to the 25 %-of-`min_area`
tier, then apply `motionGate`. -/
def detectMotion (roiLeft roiTop : ℤ) (roiW roiH : ℕ) (ignoredTop : ℕ)
    (minArea : ℚ) (hasLastValidBbox : Bool) (contours : List Contour) : Option Det :=
  if contours.isEmpty then none
  else
    match (if (contours.filter (fun c =>
          decide (minArea ≤ c.area) && decide (ignoredTop ≤ c.y))).isEmpty then
        largestContour (contours.filter (fun c =>
          decide (minArea * (25/100) ≤ c.area) && decide (ignoredTop ≤ c.y)))
      else
        largestContour (contours.filter (fun c =>
          decide (minArea ≤ c.area) && decide (ignoredTop ≤ c.y)))) with
    | none => none
    | some largest =>
      motionGate roiLeft roiTop roiW roiH ignoredTop minArea hasLastValidBbox largest

/-- A candidate considered by the template-matching loop: confidence and
match location of one (template, scale) pair, with the scaled dimensions. -/
structure TmplCand where
  conf : ℚ
  lx : ℕ
  ly : ℕ
  sw : ℕ
  sh : ℕ
deriving DecidableEq, Repr

/-- Embeds `_match_templates` (macro.py lines 612-647).  `templates` carries the
`(height, width)` of each loaded reference image and `corr ti si` is the
`(confidence, location)` that `cv2.matchTemplate` + `cv2.minMaxLoc` produce
for template `ti` at scale index `si` on the current frame (after the
method-dependent inversion of lines 628-633) — the pixel content of frame
and templates enters only through this oracle.  The loop keeps the
globally best-scoring candidate; **no ignored-top-band test is applied**
(contrast `_detect_motion_color` line 681 and `_detect_motion` line 792). -/
def matchTemplates (roiLeft roiTop : ℤ) (frameH frameW : ℕ)
    (templates : List (ℕ × ℕ)) (scales : List ℚ)
    (corr : ℕ → ℕ → ℚ × ℕ × ℕ) : Option Det :=
  if templates.isEmpty then none
  else
    let cands : List TmplCand := templates.enum.flatMap (fun ti =>
      scales.enum.filterMap (fun si =>
        let sw := (max 1 (pyInt ((ti.2.2 : ℚ) * si.2))).toNat
        let sh := (max 1 (pyInt ((ti.2.1 : ℚ) * si.2))).toNat
        if frameH < sh ∨ frameW < sw then none
        else some ⟨(corr ti.1 si.1).1, (corr ti.1 si.1).2.1,
          (corr ti.1 si.1).2.2, sw, sh⟩))
    let best := cands.foldl
      (fun (acc : ℚ × Option TmplCand) c =>
        if acc.1 < c.conf then (c.conf, some c) else acc) ((-1 : ℚ), none)
    match best.2 with
    | none => none
    | some c => some
        { x := roiLeft + c.lx, y := roiTop + c.ly, w := c.sw, h := c.sh,
          confidence := best.1 }

/-- Claim C9, amended. The color-segmentation and motion-differencing
detectors never return a candidate whose bbox top lies inside the ignored
top band (every returned top is at least `roi.top + ignored_top`); the
template-correlation detector, however, applies no such filter (see the
counterexample). -/
theorem motion_and_color_respect_top_band :
    (∀ (roiLeft roiTop : ℤ) (ignoredTop : ℕ) (contours : List Contour) (d : Det),
      detectMotionColor roiLeft roiTop ignoredTop contours = some d →
      roiTop + ignoredTop ≤ d.y) ∧
    (∀ (roiLeft roiTop : ℤ) (roiW roiH ignoredTop : ℕ) (minArea : ℚ)
        (hasLastValidBbox : Bool) (contours : List Contour) (d : Det),
      detectMotion roiLeft roiTop roiW roiH ignoredTop minArea hasLastValidBbox
          contours = some d →
      roiTop + ignoredTop ≤ d.y) := by
  have hgateC : ∀ (roiLeft roiTop : ℤ) (ignoredTop : ℕ) (largest : Contour) (d : Det),
      colorGate roiLeft roiTop ignoredTop largest = some d →
      roiTop + ignoredTop ≤ d.y := by
    intro roiLeft roiTop ignoredTop largest d h
    unfold colorGate at h
    by_cases h30 : largest.area < 30
    · rw [if_pos h30] at h
      exact Option.noConfusion h
    · rw [if_neg h30] at h
      by_cases hwh : largest.w < 20 ∨ largest.h < 20
      · rw [if_pos hwh] at h
        exact Option.noConfusion h
      · rw [if_neg hwh] at h
        by_cases hy : largest.y < ignoredTop
        · rw [if_pos hy] at h
          exact Option.noConfusion h
        · rw [if_neg hy] at h
          have hd := Option.some.inj h
          rw [← hd]
          show roiTop + (ignoredTop : ℤ) ≤ roiTop + (largest.y : ℤ)
          push_neg at hy
          omega
  have hgateM : ∀ (roiLeft roiTop : ℤ) (roiW roiH ignoredTop : ℕ) (minArea : ℚ)
      (hasLastValidBbox : Bool) (largest : Contour) (d : Det),
      motionGate roiLeft roiTop roiW roiH ignoredTop minArea hasLastValidBbox
          largest = some d →
      roiTop + ignoredTop ≤ d.y := by
    intro roiLeft roiTop roiW roiH ignoredTop minArea hasLast largest d h
    unfold motionGate at h
    by_cases h20 : largest.area < minArea * (20/100) ∧ hasLast = false
    · rw [if_pos h20] at h
      exact Option.noConfusion h
    · rw [if_neg h20] at h
      by_cases hwh : largest.w < 20 ∨ largest.h < 20
      · rw [if_pos hwh] at h
        exact Option.noConfusion h
      · rw [if_neg hwh] at h
        by_cases hy : largest.y < ignoredTop
        · rw [if_pos hy] at h
          exact Option.noConfusion h
        · rw [if_neg hy] at h
          have hd := Option.some.inj h
          rw [← hd]
          show roiTop + (ignoredTop : ℤ) ≤ roiTop + (largest.y : ℤ)
          push_neg at hy
          omega
  constructor
  · intro roiLeft roiTop ignoredTop contours d h
    unfold detectMotionColor at h
    cases hl : largestContour contours with
    | none =>
      rw [hl] at h
      exact Option.noConfusion h
    | some largest =>
      rw [hl] at h
      exact hgateC roiLeft roiTop ignoredTop largest d h
  · intro roiLeft roiTop roiW roiH ignoredTop minArea hasLast contours d h
    unfold detectMotion at h
    by_cases hemp : contours.isEmpty
    · rw [if_pos hemp] at h
      exact Option.noConfusion h
    · rw [if_neg hemp] at h
      cases hl : (if (contours.filter (fun c =>
            decide (minArea ≤ c.area) && decide (ignoredTop ≤ c.y))).isEmpty then
          largestContour (contours.filter (fun c =>
            decide (minArea * (25/100) ≤ c.area) && decide (ignoredTop ≤ c.y)))
        else
          largestContour (contours.filter (fun c =>
            decide (minArea ≤ c.area) && decide (ignoredTop ≤ c.y)))) with
      | none =>
        rw [hl] at h
        exact Option.noConfusion h
      | some largest =>
        rw [hl] at h
        exact hgateM roiLeft roiTop roiW roiH ignoredTop minArea hasLast largest d h

/-- Witness for C9's amended theorem: with a 50-pixel ignored top band, a
30×30 contour at ROI-relative `y = 60` is returned by the color detector
with absolute top `60 ≥ 0 + 50`. -/
theorem motion_and_color_respect_top_band_witness :
    (0 : ℤ) + (50 : ℕ) ≤ (⟨5, 60, 30, 30, 18/25⟩ : Det).y :=
  motion_and_color_respect_top_band.1 0 0 50 [⟨100, 5, 60, 30, 30⟩]
    ⟨5, 60, 30, 30, 18/25⟩
    (by norm_num [detectMotionColor, largestContour, colorGate, min_def])

/-- Counterexample for claim C9. The claim fails for the template-correlation
detector: with a 50-pixel ignored top band, a 30×30 template whose best
correlation lands at ROI-relative location `(0, 0)` is returned as a
candidate with bbox top `y = 0`, inside the band — `_match_templates`
never consults `_ignored_top_pixels`. -/
theorem template_top_band_counterexample :
    matchTemplates 0 0 100 100 [(30, 30)] [1] (fun _ _ => (9/10, 0, 0))
        = some { x := 0, y := 0, w := 30, h := 30, confidence := 9/10 } ∧
    ((0 : ℤ) < (0 : ℤ) + (50 : ℕ)) := by
  constructor
  · unfold matchTemplates
    norm_num [List.enum, List.enumFrom, pyInt, List.filterMap, List.foldl]
    decide
  · norm_num

end Santa
